import Mathlib

/-!
Verification of the zrpc RPC layer (src/zrpc.py) against its specification.

The development is a shallow embedding of the core of `zrpc.py`:
Python values are modelled by the inductive `Val`; exception objects by
`PyExc` (a Python `except Exception` clause always binds an exception
instance, never `None`); the pickle serializer by the trivially
round-tripping `Encoded` wrapper (pickle's contract is
`loads (dumps x) = x` for encodable values); Python dictionaries by
association lists with the operations `dictSet` (item assignment),
`dictPop` (`dict.pop(k, None)`) and `dictLookup` (`dict[k]` /
`KeyError`).  Since a Python dict never holds a duplicate key, `dictPop`
removes every binding of the key, which agrees with `dict.pop` on all
dict-representing lists and keeps the model total.

A registered handler (`Handler`) takes the live list of registry keys —
the built-in bound methods `_list_methods` and `_get_doc` read
`self.methods` at call time, and the keys are all they consult — plus the
decoded positional and keyword arguments, and either returns a value or
raises: `Except.error (e, tb)` models a raised exception `e` together
with the traceback text `traceback.format_exc()` captured at the raise
site.  Python argument-binding failures (wrong arity) surface as raised
`TypeError`s inside the handler, exactly where `func(*args, **kwargs)`
raises them in `_execute_with_tracebacks`.

One iteration of a dispatch loop (`ZRPCServer._run` / `ZWorker._run`)
is `zrpc_step` / `worker_step`: it consumes one decoded Call Frame and
reports every `send_pyobj` performed (`sends`), whether the socket was
closed and the loop left (`closed`), any uncaught exception escaping the
loop body (`crash`), and the log records emitted (`logs`).
-/

/-- Python values, as far as the zrpc core manipulates them. -/
inductive Val where
  | none
  | bool (b : Bool)
  | int (n : Int)
  | str (s : String)
  | strs (l : List String)
  | pair (a b : Val)
  | exc (kind msg : String)
deriving DecidableEq

/-- A Python exception object: its class name and message. -/
structure PyExc where
  kind : String
  msg : String
deriving DecidableEq

/-- The exception object seen as a Python value (what crosses the wire). -/
def PyExc.toVal (e : PyExc) : Val := Val.exc e.kind e.msg

/-- Python truthiness (`bool(x)`) for the modelled values. -/
def truthy : Val → Bool
  | Val.none => false
  | Val.bool b => b
  | Val.int n => n != 0
  | Val.str s => !s.isEmpty
  | Val.strs l => !l.isEmpty
  | Val.pair _ _ => true
  | Val.exc _ _ => true

/-- A pickle payload: `dumps` wraps, `loads` unwraps; the pickle contract
is that decode inverts encode on every encodable value. -/
structure Encoded (α : Type) where
  payload : α
deriving DecidableEq

/-- `pickle.dumps` under the round-trip contract. -/
def dumps {α : Type} (x : α) : Encoded α := ⟨x⟩

/-- `pickle.loads` under the round-trip contract. -/
def loads {α : Type} (e : Encoded α) : α := e.payload

/-- Keyword arguments: a Python dict from argument name to value. -/
abbrev KW : Type := List (String × Val)

/-- Dict item assignment `m[k] = v`: overwrite in place, append if new. -/
def dictSet {α : Type} : List (String × α) → String → α → List (String × α)
  | [], k, v => [(k, v)]
  | (k0, v0) :: rest, k, v =>
      if k0 = k then (k, v) :: rest else (k0, v0) :: dictSet rest k v

/-- Dict removal `m.pop(k, None)` (the state after the pop): removes the
binding of `k`.  A dict never holds a duplicate key, so removing every
occurrence agrees with Python on every dict-representing list. -/
def dictPop {α : Type} : List (String × α) → String → List (String × α)
  | [], _ => []
  | (k0, v0) :: rest, k =>
      if k0 = k then dictPop rest k else (k0, v0) :: dictPop rest k

/-- Dict lookup `m[k]`, with `Option.none` for the `KeyError` case. -/
def dictLookup {α : Type} : List (String × α) → String → Option α
  | [], _ => Option.none
  | (k0, v0) :: rest, k => if k0 = k then some v0 else dictLookup rest k

/-- Dict key listing `m.keys()`. -/
def dictKeys {α : Type} (m : List (String × α)) : List String :=
  m.map Prod.fst

/-- A registered handler.  Its first argument is the live key list of the
owning registry (the built-in bound methods read `self.methods` at call
time and consult only its keys); then the decoded positional and keyword
arguments.  `Except.error (e, tb)` is a raised exception with the
traceback text formatted at the raise site. -/
abbrev Handler : Type :=
  List String → List Val → KW → Except (PyExc × String) Val

/-- The Method Registry `self.methods`: a dict from name to handler. -/
abbrev Registry : Type := List (String × Handler)

/-- Formatted-traceback text attached to exceptions the model itself
raises for Python argument-binding failures. -/
def bindTrace : String := "Traceback (most recent call last)"

/-- `pydoc.render_doc(func, title=...)`: pydoc is an external collaborator
(spec section 1 puts it out of scope); its rendering is modelled as a
function of the registered name being documented. -/
def render_doc (func_name : String) : String :=
  String.append "Python Library Documentation: " func_name

/-- `ZBaseServer._list_methods`: returns `self.methods.keys()`. -/
def list_methods : Handler := fun ks args kwargs =>
  match args, kwargs with
  | [], [] => Except.ok (Val.strs ks)
  | _, _ =>
      Except.error ({ kind := "TypeError", msg := "too many arguments" }, bindTrace)

/-- `ZBaseServer._echo`: returns its single argument `statement`
unchanged; any other shape of arguments fails Python argument binding
with a raised `TypeError`. -/
def echo : Handler := fun _ args kwargs =>
  match args, kwargs with
  | [statement], [] => Except.ok statement
  | [], [(k, statement)] =>
      if k = "statement" then Except.ok statement
      else Except.error ({ kind := "TypeError", msg := "unexpected keyword argument" }, bindTrace)
  | _, _ =>
      Except.error ({ kind := "TypeError", msg := "wrong number of arguments" }, bindTrace)

/-- `ZBaseServer._get_doc`: looks the name up in `self.methods`, raises
`NotImplementedError(func_name)` on a miss, else returns the rendered
documentation. -/
def get_doc : Handler := fun ks args kwargs =>
  match args, kwargs with
  | [Val.str fn], [] =>
      if fn ∈ ks then Except.ok (Val.str (render_doc fn))
      else Except.error ({ kind := "NotImplementedError", msg := fn }, bindTrace)
  | _, _ =>
      Except.error ({ kind := "TypeError", msg := "wrong number of arguments" }, bindTrace)

/-- `ZBaseServer.__init__` registry seeding: `methods or` the empty dict,
then the three built-ins are assigned.  A caller passing `None` is
modelled by passing the empty list. -/
def ZBaseServer_init_methods (methods : Registry) : Registry :=
  dictSet (dictSet (dictSet methods "list_functions" list_methods)
      "documentation" get_doc)
    "echo" echo

/-- `ZRPCServer.__init__` delegates registry seeding to the base class. -/
def ZRPCServer_init_methods (methods : Registry) : Registry :=
  ZBaseServer_init_methods methods

/-- `ZWorker.__init__` delegates registry seeding to the base class. -/
def ZWorker_init_methods (methods : Registry) : Registry :=
  ZBaseServer_init_methods methods

/-- `ZBaseServer.add_function`. -/
def add_function (methods : Registry) (func_name : String) (function : Handler) : Registry :=
  dictSet methods func_name function

/-- `ZBaseServer.remove_function`: `self.methods.pop(func_name, None)`. -/
def remove_function (methods : Registry) (func_name : String) : Registry :=
  dictPop methods func_name

/-- A Call Frame on the wire: the raw (unencoded) method name, the
pickled positional arguments and the pickled keyword arguments — the
three parts of the `send_multipart` payload. -/
structure CallFrame where
  name : String
  args : Encoded (List Val)
  kwargs : Encoded KW
deriving DecidableEq

/-- A Response Envelope, the single object passed to `send_pyobj`:
`status` is Python `None` / `False` / `True`, `result` its companion. -/
structure Response where
  status : Option Bool
  result : Val
deriving DecidableEq

/-- Log severities the dispatch loops emit. -/
inductive LogLevel where
  | debug
  | warn
  | error
deriving DecidableEq

/-- What one iteration of a dispatch loop did: every Response Envelope it
passed to `send_pyobj`, whether it closed the socket and left the loop,
any uncaught exception escaping the loop body, and the log records. -/
structure StepOut where
  sends : List Response
  closed : Bool
  crash : Option PyExc
  logs : List LogLevel
deriving DecidableEq

/-- `ZBaseServer.get_message`: receive a multipart frame and decode parts
two and three with the serializer; the name stays raw. -/
def get_message (frame : CallFrame) : String × List Val × KW :=
  (frame.name, loads frame.args, loads frame.kwargs)

/-- `ZBaseServer._execute_with_tracebacks`: run the looked-up handler
(already bound, so the live registry keys are already applied); on a
raise, log at error severity and send `status=False` with the
`(exception, formatted traceback)` pair; on a normal return send
`status=True` with the result.  Returned as (log records, sends). -/
def execute_with_tracebacks
    (func : List Val → KW → Except (PyExc × String) Val)
    (args : List Val) (kwargs : KW) : List LogLevel × List Response :=
  match func args kwargs with
  | Except.error (error, formatted_traceback) =>
      ([LogLevel.error],
        [{ status := some false,
           result := Val.pair error.toVal (Val.str formatted_traceback) }])
  | Except.ok results =>
      ([], [{ status := some true, result := results }])

/-- One iteration of `ZRPCServer._run` on a received Call Frame:
`kill_server` acks with `status=True, result=True`, closes and breaks;
a registry miss answers `status=None, result=None`; a hit dispatches
through `_execute_with_tracebacks`. -/
def zrpc_step (methods : Registry) (frame : CallFrame) : StepOut :=
  let msg := get_message frame
  if msg.1 = "kill_server" then
    { sends := [{ status := some true, result := Val.bool true }],
      closed := true, crash := Option.none, logs := [] }
  else
    match dictLookup methods msg.1 with
    | Option.none =>
        { sends := [{ status := Option.none, result := Val.none }],
          closed := false, crash := Option.none, logs := [] }
    | some func =>
        let out := execute_with_tracebacks (func (dictKeys methods)) msg.2.1 msg.2.2
        { sends := out.2, closed := false, crash := Option.none, logs := out.1 }

/-- The `NameError` raised by `ZWorker._execute_async`'s success branch:
its `logger.debug("%s(*%r, **%r) -> %r", func_name, args, kwargs,
results)` references `func_name`, which is bound only inside `_run`,
never in `_execute_async` or at module level. -/
def func_name_unbound : PyExc :=
  { kind := "NameError", msg := "global name func_name is not defined" }

/-- `ZWorker._execute_async`: a raise inside the handler is caught and
logged at error severity; a normal return reaches the debug log call,
whose argument `func_name` is an unbound name, so evaluating the call
arguments raises an uncaught `NameError`.  Returned as
(log records, escaping exception). -/
def execute_async
    (func : List Val → KW → Except (PyExc × String) Val)
    (args : List Val) (kwargs : KW) : List LogLevel × Option PyExc :=
  match func args kwargs with
  | Except.error _ => ([LogLevel.error], Option.none)
  | Except.ok _results => ([], some func_name_unbound)

/-- One iteration of `ZWorker._run` on a received Call Frame:
`kill_server` closes and breaks with no acknowledgment; a registry miss
is passed over silently; a hit dispatches through `_execute_async`,
whose escaping exception (if any) propagates out of the loop body
uncaught. -/
def worker_step (methods : Registry) (frame : CallFrame) : StepOut :=
  let msg := get_message frame
  if msg.1 = "kill_server" then
    { sends := [], closed := true, crash := Option.none, logs := [] }
  else
    match dictLookup methods msg.1 with
    | Option.none =>
        { sends := [], closed := false, crash := Option.none, logs := [] }
    | some func =>
        let out := execute_async (func (dictKeys methods)) msg.2.1 msg.2.2
        { sends := [], closed := false, crash := out.2, logs := out.1 }

/-- What a client proxy call does for its caller: return a value, raise
an exception, or block forever because no reply ever arrives. -/
inductive ClientOutcome where
  | ret (v : Val)
  | raise (e : Val)
  | blocked
deriving DecidableEq

/-- `ZRPCClient._call`, interpretation of the received envelope: `None`
status yields the `(None, None)` pair, `False` status unpacks the
`(error value, traceback)` pair (raising a local `TypeError` if the
result is not a pair) and yields `(False, error value)`, anything else
yields `(True, result)`. -/
def client_call (resp : Response) : Except PyExc (Option Bool × Val) :=
  match resp.status with
  | Option.none => Except.ok (Option.none, Val.none)
  | some false =>
      match resp.result with
      | Val.pair error_value _tb => Except.ok (some false, error_value)
      | _ => Except.error { kind := "TypeError", msg := "cannot unpack result" }
  | some true => Except.ok (some true, resp.result)

/-- `bool(kwargs.pop("_suppress", None))` together with the remaining
keyword arguments actually forwarded. -/
def pop_suppress (kwargs : KW) : Bool × KW :=
  (truthy ((dictLookup kwargs "_suppress").getD Val.none),
    dictPop kwargs "_suppress")

/-- The body of the `rpc_call` closure built by `ZRPCClient.__getattr__`,
applied to the envelope `_call` interpreted: truthy status returns the
result; otherwise, under suppression return `None`, else raise
`NotImplementedError(method)` when the accompanying result is `None`
and re-raise the remote error value otherwise. -/
def rpc_call (method : String) (suppress_errors : Bool) (resp : Response) : ClientOutcome :=
  match client_call resp with
  | Except.error e => ClientOutcome.raise e.toVal
  | Except.ok (status, result) =>
      match status with
      | some true => ClientOutcome.ret result
      | _ =>
          if suppress_errors then ClientOutcome.ret Val.none
          else if result = Val.none then
            ClientOutcome.raise (Val.exc "NotImplementedError" method)
          else ClientOutcome.raise result

/-- One full proxy round trip against a live `ZRPCServer`. -/
structure Interaction where
  frame : CallFrame
  server : StepOut
  result : ClientOutcome

/-- A proxy call `client.method(*args, **kwargs)` against a live server
with registry `methods`: pop `_suppress`, send the three-part Call Frame,
let the server take one dispatch step, receive its reply (blocking
forever if it never sends one), and interpret it as `rpc_call` does. -/
def proxy_roundtrip (methods : Registry) (method : String)
    (args : List Val) (kwargs : KW) : Interaction :=
  let sp := pop_suppress kwargs
  let frame : CallFrame := { name := method, args := dumps args, kwargs := dumps sp.2 }
  let out := zrpc_step methods frame
  let result :=
    match out.sends with
    | [] => ClientOutcome.blocked
    | r :: _ => rpc_call method sp.1 r
  { frame := frame, server := out, result := result }

/-- Name resolution for an expression inside a function body: the name
must be bound in the local/enclosing scope listed or among the module
globals of `zrpc.py` — which bind no `args` or `kwargs` — otherwise the
evaluation raises `NameError`. -/
def resolve_name (scope : List String) (n : String) : Except PyExc Unit :=
  if n ∈ scope then Except.ok ()
  else Except.error
    { kind := "NameError", msg := String.append (String.append "global name " n) " is not defined" }

/-- `ZMaster._call`: pickles the arguments and pushes the three-part Call
Frame; a push-pull channel carries no reply. -/
def ZMaster_call (method : String) (args : List Val) (kwargs : KW) : CallFrame :=
  { name := method, args := dumps args, kwargs := dumps kwargs }

/-- `ZMaster.__getattr__` body, `self._call(method, *args, **kwargs)`:
the argument expressions are evaluated before `_call` can run, and its
local scope binds only `self` and `method`, so resolving `args` (then
`kwargs`) fails.  Returned as (frames pushed, escaping exception); the
final branch is unreachable because both names are unbound. -/
def ZMaster_getattr (method : String) : List CallFrame × Option PyExc :=
  match resolve_name ["self", "method"] "args" with
  | Except.error e => ([], some e)
  | Except.ok _ =>
      match resolve_name ["self", "method"] "kwargs" with
      | Except.error e => ([], some e)
      | Except.ok _ => ([ZMaster_call method [] []], Option.none)

/-- The state after one reachable sequence of registry operations on a
server or worker: seeding at construction, then any interleaving of
`add_function` and `remove_function`. -/
inductive ReachableRegistry : Registry → Prop where
  | init : ∀ methods : Registry, ReachableRegistry (ZBaseServer_init_methods methods)
  | add : ∀ (m : Registry) (k : String) (f : Handler),
      ReachableRegistry m → ReachableRegistry (add_function m k f)
  | remove : ∀ (m : Registry) (k : String),
      ReachableRegistry m → ReachableRegistry (remove_function m k)

/-- A user handler that ignores its arguments and returns `v`. -/
def constHandler (v : Val) : Handler := fun _ _ _ => Except.ok v

/-- A user handler that always raises `e`, with traceback text `tb`
formatted at the raise site. -/
def raiseHandler (e : PyExc) (tb : String) : Handler := fun _ _ _ => Except.error (e, tb)

theorem dictLookup_dictSet_self {α : Type} (m : List (String × α)) (k : String) (v : α) :
    dictLookup (dictSet m k v) k = some v := by
  induction m with
  | nil => simp [dictSet, dictLookup]
  | cons p rest ih =>
      by_cases h : p.1 = k
      · cases p
        simp_all [dictSet, dictLookup]
      · cases p
        simp_all [dictSet, dictLookup]

theorem mem_dictKeys_dictSet_self {α : Type} (m : List (String × α)) (k : String) (v : α) :
    k ∈ dictKeys (dictSet m k v) := by
  induction m with
  | nil => simp [dictSet, dictKeys]
  | cons p rest ih =>
      by_cases h : p.1 = k
      · cases p
        simp_all [dictSet, dictKeys]
      · cases p
        simp_all [dictSet, dictKeys]

theorem mem_dictKeys_dictSet_of_mem {α : Type} (m : List (String × α)) (k j : String) (v : α) :
    j ∈ dictKeys m → j ∈ dictKeys (dictSet m k v) := by
  induction m with
  | nil =>
      intro hj
      simp [dictKeys] at hj
  | cons p rest ih =>
      cases p with
      | mk k0 v0 =>
          intro hj
          by_cases h : k0 = k
          · simp only [dictSet, if_pos h, dictKeys, List.map_cons, List.mem_cons] at hj ⊢
            rcases hj with hj | hj
            · exact Or.inl (by rw [hj, h])
            · exact Or.inr hj
          · simp only [dictSet, if_neg h, dictKeys, List.map_cons, List.mem_cons] at hj ⊢
            rcases hj with hj | hj
            · exact Or.inl hj
            · exact Or.inr (ih hj)

theorem dictLookup_dictPop_self {α : Type} (m : List (String × α)) (k : String) :
    dictLookup (dictPop m k) k = Option.none := by
  induction m with
  | nil => simp [dictPop, dictLookup]
  | cons p rest ih =>
      by_cases h : p.1 = k
      · cases p
        simp_all [dictPop]
      · cases p
        simp_all [dictPop, dictLookup]

theorem not_mem_dictKeys_dictPop_self {α : Type} (m : List (String × α)) (k : String) :
    k ∉ dictKeys (dictPop m k) := by
  induction m with
  | nil => simp [dictPop, dictKeys]
  | cons p rest ih =>
      by_cases h : p.1 = k
      · cases p
        simp_all [dictPop]
      · cases p
        simp_all [dictPop, dictKeys]
        intro hk
        exact h hk.symm

theorem dictPop_eq_of_lookup_none {α : Type} (m : List (String × α)) (k : String)
    (h : dictLookup m k = Option.none) : dictPop m k = m := by
  induction m with
  | nil => simp [dictPop]
  | cons p rest ih =>
      by_cases hp : p.1 = k
      · cases p
        simp_all [dictLookup]
      · cases p
        simp_all [dictPop, dictLookup]

theorem pop_suppress_of_absent (kwargs : KW)
    (h : dictLookup kwargs "_suppress" = Option.none) :
    pop_suppress kwargs = (false, kwargs) := by
  simp [pop_suppress, h, truthy, dictPop_eq_of_lookup_none kwargs "_suppress" h]

theorem dictLookup_pop_suppress (kwargs : KW) :
    dictLookup (pop_suppress kwargs).2 "_suppress" = Option.none := by
  simp [pop_suppress]
  exact dictLookup_dictPop_self kwargs "_suppress"

/-- C1 counterexample: the claim quantifies over every registered handler,
but the `kill_server` test in `ZRPCServer._run` precedes the registry
lookup, so a handler registered under the name `kill_server` is never
invoked: the proxy call receives the shutdown acknowledgment
`status=True, result=True` and returns `True`, not the handler result. -/
theorem kill_server_shadows_registered_handler :
    dictLookup (dictSet (ZBaseServer_init_methods []) "kill_server" (constHandler (Val.int 42)))
        "kill_server" = some (constHandler (Val.int 42)) ∧
    constHandler (Val.int 42)
        (dictKeys (dictSet (ZBaseServer_init_methods []) "kill_server" (constHandler (Val.int 42))))
        [] [] = Except.ok (Val.int 42) ∧
    (proxy_roundtrip (dictSet (ZBaseServer_init_methods []) "kill_server" (constHandler (Val.int 42)))
        "kill_server" [] []).result = ClientOutcome.ret (Val.bool true) ∧
    ClientOutcome.ret (Val.bool true) ≠ ClientOutcome.ret (Val.int 42) :=
  ⟨rfl, rfl, rfl, by decide⟩

/-- C1 (amended): for every handler registered under a name other than
the reserved sentinel `kill_server`, and every encodable arguments whose
keywords do not include the reserved `_suppress` key, on which the
handler returns normally, the proxy call sends the three-part Call Frame
(raw name, pickled args, pickled kwargs), the server replies with one
`status=True` envelope, and the proxy returns exactly the handler
result. -/
theorem client_round_trip (methods : Registry) (m : String) (h : Handler)
    (args : List Val) (kwargs : KW) (v : Val)
    (hm : m ≠ "kill_server")
    (hs : dictLookup kwargs "_suppress" = Option.none)
    (hl : dictLookup methods m = some h)
    (hv : h (dictKeys methods) args kwargs = Except.ok v) :
    (proxy_roundtrip methods m args kwargs).frame
        = { name := m, args := dumps args, kwargs := dumps kwargs } ∧
    (proxy_roundtrip methods m args kwargs).server.sends
        = [{ status := some true, result := v }] ∧
    (proxy_roundtrip methods m args kwargs).result = ClientOutcome.ret v := by
  have hpop := pop_suppress_of_absent kwargs hs
  simp only [proxy_roundtrip, hpop, zrpc_step, get_message, loads, dumps, if_neg hm, hl,
    execute_with_tracebacks, hv, rpc_call, client_call]
  exact ⟨trivial, trivial, trivial⟩

/-- C1 witness: the built-in `echo` handler round-trips the payload 7. -/
theorem client_round_trip_witness :
    ("echo" : String) ≠ "kill_server" ∧
    dictLookup ([] : KW) "_suppress" = Option.none ∧
    dictLookup (ZBaseServer_init_methods []) "echo" = some echo ∧
    echo (dictKeys (ZBaseServer_init_methods [])) [Val.int 7] [] = Except.ok (Val.int 7) ∧
    (proxy_roundtrip (ZBaseServer_init_methods []) "echo" [Val.int 7] []).result
        = ClientOutcome.ret (Val.int 7) :=
  ⟨by decide, rfl, rfl, rfl,
    (client_round_trip (ZBaseServer_init_methods []) "echo" echo [Val.int 7] [] (Val.int 7)
      (by decide) rfl rfl rfl).2.2⟩

/-- C2: every branch of `ZRPCServer._run` on a well-formed Call Frame —
shutdown sentinel, unknown name, handler success, handler failure —
performs exactly one `send_pyobj`, never zero and never two. -/
theorem zrpc_step_exactly_one_reply (methods : Registry) (frame : CallFrame) :
    ((zrpc_step methods frame).sends).length = 1 := by
  simp only [zrpc_step]
  by_cases h : (get_message frame).1 = "kill_server"
  · simp [h]
  · simp only [if_neg h]
    cases dictLookup methods (get_message frame).1 with
    | none => rfl
    | some func =>
        simp only [execute_with_tracebacks]
        cases hr : func (dictKeys methods) (get_message frame).2.1 (get_message frame).2.2 with
        | error e =>
            cases e with
            | mk a b => simp [hr]
        | ok r => simp [hr]

/-- C3: when a registered handler raises, `_execute_with_tracebacks`
catches the exception, logs at error severity, and sends one envelope
with `status=False` and result equal to the (exception value, formatted
traceback text) pair; the client re-raises that exception value unless
suppression was requested, in which case it returns the empty sentinel
`None`. -/
theorem handler_failure_marshalled (methods : Registry) (m : String) (h : Handler)
    (args : List Val) (kwargs kw2 : KW) (sup : Bool) (e : PyExc) (tb : String)
    (hm : m ≠ "kill_server")
    (hpop : pop_suppress kwargs = (sup, kw2))
    (hl : dictLookup methods m = some h)
    (hraise : h (dictKeys methods) args kw2 = Except.error (e, tb)) :
    (proxy_roundtrip methods m args kwargs).server.sends
        = [{ status := some false, result := Val.pair e.toVal (Val.str tb) }] ∧
    (proxy_roundtrip methods m args kwargs).server.logs = [LogLevel.error] ∧
    (proxy_roundtrip methods m args kwargs).result
        = (if sup then ClientOutcome.ret Val.none else ClientOutcome.raise e.toVal) := by
  simp only [proxy_roundtrip, hpop, zrpc_step, get_message, loads, dumps, if_neg hm, hl,
    execute_with_tracebacks, hraise, rpc_call, client_call, PyExc.toVal]
  refine ⟨trivial, trivial, ?_⟩
  cases sup with
  | false => simp
  | true => simp

/-- C3 witness: a handler raising `ValueError("boom")` reaches the caller
re-raised when not suppressed. -/
theorem handler_failure_marshalled_witness :
    ("boom" : String) ≠ "kill_server" ∧
    pop_suppress ([] : KW) = (false, []) ∧
    dictLookup (add_function (ZBaseServer_init_methods []) "boom"
        (raiseHandler { kind := "ValueError", msg := "boom" } "trace"))
        "boom" = some (raiseHandler { kind := "ValueError", msg := "boom" } "trace") ∧
    (proxy_roundtrip (add_function (ZBaseServer_init_methods []) "boom"
        (raiseHandler { kind := "ValueError", msg := "boom" } "trace"))
        "boom" [] []).result
      = ClientOutcome.raise (Val.exc "ValueError" "boom") :=
  ⟨by decide, rfl, rfl, by
    simpa using (handler_failure_marshalled
      (add_function (ZBaseServer_init_methods []) "boom"
        (raiseHandler { kind := "ValueError", msg := "boom" } "trace"))
      "boom" (raiseHandler { kind := "ValueError", msg := "boom" } "trace")
      [] [] [] false { kind := "ValueError", msg := "boom" } "trace"
      (by decide) rfl rfl rfl).2.2⟩

/-- C4 counterexample: `kill_server` is absent from the freshly seeded
registry, yet a client call to it does not receive a `status=None`
envelope and does not raise: the `kill_server` test in `ZRPCServer._run`
precedes the lookup and the proxy returns `True`. -/
theorem kill_server_not_null_envelope :
    dictLookup (ZBaseServer_init_methods []) "kill_server" = Option.none ∧
    (proxy_roundtrip (ZBaseServer_init_methods []) "kill_server" [] []).server.sends
        = [{ status := some true, result := Val.bool true }] ∧
    (some true : Option Bool) ≠ Option.none ∧
    (proxy_roundtrip (ZBaseServer_init_methods []) "kill_server" [] []).result
        = ClientOutcome.ret (Val.bool true) :=
  ⟨rfl, rfl, by decide, rfl⟩

/-- C4 (amended): for every method name absent from the registry other
than the reserved `kill_server` sentinel, the server answers one
`status=None, result=None` envelope; the client raises
`NotImplementedError` carrying the name when not suppressed and returns
the empty sentinel when suppressed; and the reserved `_suppress` keyword
is consumed by the proxy, never forwarded in the Call Frame. -/
theorem unknown_method_null_envelope (methods : Registry) (m : String)
    (args : List Val) (kwargs kw2 : KW) (sup : Bool)
    (hm : m ≠ "kill_server")
    (hpop : pop_suppress kwargs = (sup, kw2))
    (habs : dictLookup methods m = Option.none) :
    (proxy_roundtrip methods m args kwargs).frame.kwargs = dumps kw2 ∧
    dictLookup kw2 "_suppress" = Option.none ∧
    (proxy_roundtrip methods m args kwargs).server.sends
        = [{ status := Option.none, result := Val.none }] ∧
    (proxy_roundtrip methods m args kwargs).result
        = (if sup then ClientOutcome.ret Val.none
           else ClientOutcome.raise (Val.exc "NotImplementedError" m)) := by
  have hkw2 : kw2 = (pop_suppress kwargs).2 := by rw [hpop]
  refine ⟨?_, ?_, ?_, ?_⟩
  · simp only [proxy_roundtrip, hpop]
  · rw [hkw2]
    exact dictLookup_pop_suppress kwargs
  · simp only [proxy_roundtrip, hpop, zrpc_step, get_message, loads, dumps, if_neg hm, habs]
  · simp only [proxy_roundtrip, hpop, zrpc_step, get_message, loads, dumps, if_neg hm, habs,
      rpc_call, client_call]
    cases sup with
    | false => simp
    | true => simp

/-- C4 witness: calling the unregistered name `nope` with suppression
requested returns the empty sentinel, and the `_suppress` key is gone
from the forwarded keyword arguments. -/
theorem unknown_method_null_envelope_witness :
    ("nope" : String) ≠ "kill_server" ∧
    pop_suppress [("_suppress", Val.bool true)] = (true, []) ∧
    dictLookup (ZBaseServer_init_methods []) "nope" = Option.none ∧
    (proxy_roundtrip (ZBaseServer_init_methods []) "nope" [] [("_suppress", Val.bool true)]).frame.kwargs
        = dumps ([] : KW) ∧
    (proxy_roundtrip (ZBaseServer_init_methods []) "nope" [] [("_suppress", Val.bool true)]).result
        = ClientOutcome.ret Val.none :=
  ⟨by decide, rfl, rfl,
    (unknown_method_null_envelope (ZBaseServer_init_methods []) "nope" [] [("_suppress", Val.bool true)]
      [] true (by decide) rfl rfl).1,
    by
      simpa using (unknown_method_null_envelope (ZBaseServer_init_methods []) "nope" []
        [("_suppress", Val.bool true)] [] true (by decide) rfl rfl).2.2.2⟩

/-- C5, evaluated at the failing input: the `ZRPCServer` half of the
claim holds (a raising handler is caught and converted into one
`status=False` reply with an error-severity log, and the loop neither
crashes nor stops), and so does the Worker's raising half; but when a
Worker handler returns normally, the success-path debug log in
`_execute_async` evaluates the unbound name `func_name` and the
resulting `NameError` escapes the loop body uncaught: the dispatch loop
terminates abnormally after a successful handler invocation. -/
theorem worker_crashes_after_successful_handler :
    zrpc_step (add_function (ZBaseServer_init_methods []) "f"
          (raiseHandler { kind := "ValueError", msg := "boom" } "trace"))
        { name := "f", args := dumps [], kwargs := dumps [] }
      = { sends := [{ status := some false,
                      result := Val.pair (Val.exc "ValueError" "boom") (Val.str "trace") }],
          closed := false, crash := Option.none, logs := [LogLevel.error] } ∧
    worker_step (add_function (ZWorker_init_methods []) "f"
          (raiseHandler { kind := "ValueError", msg := "boom" } "trace"))
        { name := "f", args := dumps [], kwargs := dumps [] }
      = { sends := [], closed := false, crash := Option.none, logs := [LogLevel.error] } ∧
    constHandler Val.none
        (dictKeys (add_function (ZWorker_init_methods []) "f" (constHandler Val.none))) [] []
      = Except.ok Val.none ∧
    worker_step (add_function (ZWorker_init_methods []) "f" (constHandler Val.none))
        { name := "f", args := dumps [], kwargs := dumps [] }
      = { sends := [], closed := false, crash := some func_name_unbound, logs := [] } :=
  ⟨rfl, rfl, rfl, rfl⟩

/-- C6 counterexample: the claim says the `echo` built-in is seeded only
into the request-reply server's registry, but `ZWorker.__init__`
delegates to the same `ZBaseServer.__init__`, which registers it:
`echo` is present in a freshly seeded Worker registry. -/
theorem echo_present_in_worker_registry :
    dictLookup (ZWorker_init_methods []) "echo" = some echo ∧
    "echo" ∈ dictKeys (ZWorker_init_methods []) :=
  ⟨rfl, by decide⟩

/-- C6 (amended): the `echo` built-in is seeded at construction into the
registries of both the request-reply server and the fire-and-forget
Worker (the shared base constructor registers it), and for every payload
it returns the payload unchanged. -/
theorem echo_seeded_in_both_registries (methods0 : Registry) (ks : List String) (p : Val) :
    "echo" ∈ dictKeys (ZRPCServer_init_methods methods0) ∧
    "echo" ∈ dictKeys (ZWorker_init_methods methods0) ∧
    echo ks [p] [] = Except.ok p :=
  ⟨mem_dictKeys_dictSet_self _ _ _, mem_dictKeys_dictSet_self _ _ _, rfl⟩

/-- C7: the Worker's dispatch loop never sends any response for any
received frame; a frame whose name misses the registry is discarded and
the loop continues untouched; and a `kill_server` frame closes the
channel and terminates the loop with no acknowledgment. -/
theorem worker_sends_nothing (methods : Registry) (m : String)
    (ea ea2 : Encoded (List Val)) (ekw ekw2 : Encoded KW)
    (hm : m ≠ "kill_server")
    (habs : dictLookup methods m = Option.none) :
    (∀ frame : CallFrame, (worker_step methods frame).sends = []) ∧
    worker_step methods { name := m, args := ea, kwargs := ekw }
      = { sends := [], closed := false, crash := Option.none, logs := [] } ∧
    worker_step methods { name := "kill_server", args := ea2, kwargs := ekw2 }
      = { sends := [], closed := true, crash := Option.none, logs := [] } := by
  refine ⟨?_, ?_, rfl⟩
  · intro frame
    simp only [worker_step]
    by_cases h : (get_message frame).1 = "kill_server"
    · simp [h]
    · simp only [if_neg h]
      cases dictLookup methods (get_message frame).1 with
      | none => rfl
      | some func => rfl
  · simp [worker_step, get_message, hm, habs]

/-- C7 witness: a fresh Worker registry, an unregistered name, and the
shutdown sentinel. -/
theorem worker_sends_nothing_witness :
    ("nope" : String) ≠ "kill_server" ∧
    dictLookup (ZWorker_init_methods []) "nope" = Option.none ∧
    worker_step (ZWorker_init_methods []) { name := "nope", args := dumps [], kwargs := dumps [] }
      = { sends := [], closed := false, crash := Option.none, logs := [] } ∧
    worker_step (ZWorker_init_methods [])
        { name := "kill_server", args := dumps [], kwargs := dumps [] }
      = { sends := [], closed := true, crash := Option.none, logs := [] } :=
  ⟨by decide, rfl,
    (worker_sends_nothing (ZWorker_init_methods []) "nope" (dumps []) (dumps [])
      (dumps []) (dumps []) (by decide) rfl).2.1,
    (worker_sends_nothing (ZWorker_init_methods []) "nope" (dumps []) (dumps [])
      (dumps []) (dumps []) (by decide) rfl).2.2⟩

/-- C8: a `kill_server` request makes `ZRPCServer._run` send the single
envelope `status=True, result=True`, close the transport endpoint and
leave the dispatch loop, whatever the registry holds and whatever the
encoded arguments are. -/
theorem kill_server_ack_close_stop (methods : Registry)
    (ea : Encoded (List Val)) (ekw : Encoded KW) :
    zrpc_step methods { name := "kill_server", args := ea, kwargs := ekw }
      = { sends := [{ status := some true, result := Val.bool true }],
          closed := true, crash := Option.none, logs := [] } := rfl

/-- C9 counterexample: the claim demands that in every reachable registry
state the listing includes `documentation`, yet the state reached by
removing `documentation` right after construction is reachable and its
listing (what `_list_methods` returns, the live key set) no longer
contains it. -/
theorem removed_builtin_absent_from_listing :
    ReachableRegistry (remove_function (ZBaseServer_init_methods []) "documentation") ∧
    list_methods (dictKeys (remove_function (ZBaseServer_init_methods []) "documentation")) [] []
      = Except.ok (Val.strs ["list_functions", "echo"]) ∧
    "documentation" ∉ ["list_functions", "echo"] :=
  ⟨ReachableRegistry.remove _ "documentation" (ReachableRegistry.init []), rfl, by decide⟩

/-- C9 (amended): `list_functions()` returns exactly the registry's
current keys; at construction the listing includes `list_functions`,
`documentation` and every constructor-supplied name; a name passes into
the listing through `add_function`; after `remove_function(name)` the
name is absent from the listing and its lookup misses, and — for names
other than the reserved `kill_server` sentinel, whose requests take the
shutdown branch before any lookup — a subsequent request for the removed
name takes the unknown-method path of the dispatch loop; and
`remove_function` on an absent name is a no-op, not an error. -/
theorem registry_listing_contract (m0 m : Registry) (k j : String) (f : Handler)
    (ks : List String) (ea : Encoded (List Val)) (ekw : Encoded KW)
    (hk : k ≠ "kill_server")
    (hj : dictLookup m j = Option.none) :
    list_methods ks [] [] = Except.ok (Val.strs ks) ∧
    "list_functions" ∈ dictKeys (ZBaseServer_init_methods m0) ∧
    "documentation" ∈ dictKeys (ZBaseServer_init_methods m0) ∧
    (∀ n, n ∈ dictKeys m0 → n ∈ dictKeys (ZBaseServer_init_methods m0)) ∧
    k ∈ dictKeys (add_function m k f) ∧
    dictLookup (remove_function m k) k = Option.none ∧
    k ∉ dictKeys (remove_function m k) ∧
    remove_function m j = m ∧
    zrpc_step (remove_function m k) { name := k, args := ea, kwargs := ekw }
      = { sends := [{ status := Option.none, result := Val.none }],
          closed := false, crash := Option.none, logs := [] } := by
  refine ⟨rfl, ?_, ?_, ?_, ?_, ?_, ?_, ?_, ?_⟩
  · exact mem_dictKeys_dictSet_of_mem _ "echo" "list_functions" echo
      (mem_dictKeys_dictSet_of_mem _ "documentation" "list_functions" get_doc
        (mem_dictKeys_dictSet_self m0 "list_functions" list_methods))
  · exact mem_dictKeys_dictSet_of_mem _ "echo" "documentation" echo
      (mem_dictKeys_dictSet_self _ "documentation" get_doc)
  · intro n hn
    exact mem_dictKeys_dictSet_of_mem _ "echo" n echo
      (mem_dictKeys_dictSet_of_mem _ "documentation" n get_doc
        (mem_dictKeys_dictSet_of_mem _ "list_functions" n list_methods hn))
  · exact mem_dictKeys_dictSet_self m k f
  · exact dictLookup_dictPop_self m k
  · exact not_mem_dictKeys_dictPop_self m k
  · exact dictPop_eq_of_lookup_none m j hj
  · simp [zrpc_step, get_message, hk, dictLookup_dictPop_self m k, remove_function]

/-- C9 witness: removing the seeded `echo` empties its listing entry and
sends later calls to it down the unknown-method path; removing the
absent name `nope` changes nothing. -/
theorem registry_listing_contract_witness :
    ("echo" : String) ≠ "kill_server" ∧
    dictLookup (ZBaseServer_init_methods []) "nope" = Option.none ∧
    "echo" ∉ dictKeys (remove_function (ZBaseServer_init_methods []) "echo") ∧
    remove_function (ZBaseServer_init_methods []) "nope" = ZBaseServer_init_methods [] ∧
    zrpc_step (remove_function (ZBaseServer_init_methods []) "echo")
        { name := "echo", args := dumps [], kwargs := dumps [] }
      = { sends := [{ status := Option.none, result := Val.none }],
          closed := false, crash := Option.none, logs := [] } :=
  ⟨by decide, rfl,
    (registry_listing_contract [] (ZBaseServer_init_methods []) "echo" "nope"
      (constHandler Val.none) [] (dumps []) (dumps []) (by decide) rfl).2.2.2.2.2.2.1,
    (registry_listing_contract [] (ZBaseServer_init_methods []) "echo" "nope"
      (constHandler Val.none) [] (dumps []) (dumps []) (by decide) rfl).2.2.2.2.2.2.2.1,
    (registry_listing_contract [] (ZBaseServer_init_methods []) "echo" "nope"
      (constHandler Val.none) [] (dumps []) (dumps []) (by decide) rfl).2.2.2.2.2.2.2.2⟩

/-- C10: for every attribute name reaching `ZMaster.__getattr__`, the
body `self._call(method, *args, **kwargs)` evaluates the unbound names
`args`/`kwargs` and raises `NameError` before anything is pushed onto
the channel, instead of returning a callable; only the direct
`ZMaster._call` entry point pushes a Call Frame. -/
theorem zmaster_getattr_name_error (method : String) (args : List Val) (kwargs : KW) :
    ZMaster_getattr method
      = ([], some { kind := "NameError", msg := "global name args is not defined" }) ∧
    ZMaster_call method args kwargs
      = { name := method, args := dumps args, kwargs := dumps kwargs } :=
  ⟨rfl, rfl⟩
